import Mathlib

/-!
Verification development for the treat-planner repository.

The file embeds, as executable Lean definitions, the pieces of the source
that the specification's claims are about:

* the transcription job poller (`pollTranscription` in `src/pages/index.js`,
  whose attempt accounting is identical to the recursive `poll` in
  `src/public/app.js`);
* the submission pipeline (`submitTranscription` in `src/pages/index.js`);
* the treatment-plans proxy handler with its bounded retry loop
  (`src/pages/api/transcribe.js`, treatment-plans section);
* the recording lifecycle state machine of the React page
  (`src/pages/index.js`: `startRecording`, `pauseRecording`,
  `stopRecording`, `resetView`, and the recorder callbacks), together with
  the `resetView` of the plain-script variant (`src/public/app.js`).

JavaScript truthiness on optional strings (`x || d`) is modelled by `jsOr`,
and `String.prototype.includes` by `jsIncludes`.
-/

/-- Models the JavaScript expression `x || d` for an optional string `x`:
`undefined`/`null` and the empty string are falsy and give the default. -/
def jsOr : Option String → String → String
  | none, d => d
  | some s, d => if s = "" then d else s

/-- Models `s.includes(sub)` for a non-empty needle: `splitOn` yields at
least two pieces exactly when `sub` occurs in `s`. -/
def jsIncludes (s sub : String) : Bool :=
  2 ≤ (s.splitOn sub).length

/-! ## Job Poller (`pollTranscription` / `executePoll` in src/pages/index.js) -/

/-- One scripted outcome of `fetch("/api/transcript/" + transcriptId)`:
the promise rejects with an error whose message is `msg`, the response
arrives with `response.ok` false, or a JSON body
`{ status, text?, error? }` is obtained. -/
inductive FetchOutcome
  | reject (msg : String)
  | httpNotOk
  | ok (status : String) (text : Option String) (err : Option String)
deriving DecidableEq, Repr

/-- Terminal observation of a poll run: the UI ends in `completed` with the
shown text, ends in `error` with the shown message, or a further poll was
scheduled but the scripted environment supplied no further response. -/
inductive PollEnd
  | completed (text : String)
  | errored (message : String)
  | pending
deriving DecidableEq, Repr

/-- `const maxAttempts = 100` in `pollTranscription`. -/
def maxAttempts : Nat := 100

/-- `const delay = 3000` in `pollTranscription`: the fixed interval, in
milliseconds, between a non-terminal status and the next scheduled poll. -/
def pollIntervalMs : Nat := 3000

/-- The body of `executePoll` in `src/pages/index.js`, run against a script
of fetch outcomes, carrying the `attempt` counter of `pollTranscription`.
Returns the terminal observation together with the number of fetches
performed.  A rejected fetch surfaces `err.message || "Failed to get
transcription"`; a non-ok response throws
`"Failed to get transcription status"`; status `"completed"` resolves with
`result.text || "No transcription text available."`; status `"error"`
throws `result.error || "Transcription failed"`; any other status counts
the attempt and, unless `attempt + 1 >= maxAttempts` (which throws the
timeout error), schedules the next poll after `pollIntervalMs`. -/
def pollGo : List FetchOutcome → Nat → PollEnd × Nat
  | [], _ => (.pending, 0)
  | o :: rest, attempt =>
    match o with
    | .reject m => (.errored (jsOr (some m) "Failed to get transcription"), 1)
    | .httpNotOk => (.errored "Failed to get transcription status", 1)
    | .ok s t e =>
      if s = "completed" then
        (.completed (jsOr t "No transcription text available."), 1)
      else if s = "error" then
        (.errored (jsOr e "Transcription failed"), 1)
      else if maxAttempts ≤ attempt + 1 then
        (.errored "Transcription timeout. Please try again.", 1)
      else
        ((pollGo rest (attempt + 1)).1, (pollGo rest (attempt + 1)).2 + 1)

/-- `pollTranscription(transcriptId, 0)`: the poll loop started with
attempt counter 0. -/
def pollTranscription (script : List FetchOutcome) : PollEnd × Nat :=
  pollGo script 0

/-- A fetch outcome the poller treats as still in progress: a JSON status
that is neither exactly `"completed"` nor exactly `"error"`. -/
def inProgress : FetchOutcome → Bool
  | .ok s _ _ => !(s = "completed") && !(s = "error")
  | _ => false

/-! ## Submission Pipeline (`submitTranscription` in src/pages/index.js) -/

/-- One network operation performed by the submission pipeline. -/
inductive NetOp
  | upload
  | startJob
  | pollFetch
deriving DecidableEq, Repr

/-- Terminal observation of `submitTranscription`: the early
`setError("No audio recorded. Please record audio first.")` return, a
thrown upload/job-start error (transcription status `error` with the given
message), or the hand-off to the poller with its outcome and fetch
count. -/
inductive SubmitOutcome
  | noAudio
  | failed (message : String)
  | polled (e : PollEnd) (fetches : Nat)
deriving DecidableEq, Repr

/-- `submitTranscription` from `src/pages/index.js`, with the audio blob
(the chunk list held by `audioBlobRef`) and scripted collaborator
responses.  `upl` is the `/api/upload` response (`Except` error payload of
a non-ok response, or the `uploadUrl`), `trx` the `/api/transcribe`
response (error payload, or the `transcriptId`), `script` the poll fetch
outcomes.  Returns the outcome and the ordered network operations
performed. -/
def submitTranscription (blob : Option (List Nat))
    (upl : Except (Option String) String) (trx : Except (Option String) String)
    (script : List FetchOutcome) : SubmitOutcome × List NetOp :=
  match blob with
  | none => (.noAudio, [])
  | some _ =>
    match upl with
    | .error e => (.failed (jsOr e "Failed to upload audio"), [.upload])
    | .ok _url =>
      match trx with
      | .error e => (.failed (jsOr e "Failed to start transcription"), [.upload, .startJob])
      | .ok _id =>
        (.polled (pollTranscription script).1 (pollTranscription script).2,
          [.upload, .startJob] ++ List.replicate (pollTranscription script).2 .pollFetch)

/-! ## Treatment-plans proxy (`handler` in src/pages/api/transcribe.js) -/

/-- The four fields destructured from `req.body || {}` by the
treatment-plans proxy; an absent field is `none`. -/
structure PlannerBody where
  session_id : Option String
  user_id : Option String
  slot_id : Option String
  treatment_planner_text : Option String
deriving DecidableEq, Repr

/-- JavaScript truthiness of an optional string field: absent (`undefined`
or `null`) and the empty string are falsy. -/
def truthy : Option String → Bool
  | none => false
  | some s => !(s = "")

/-- One scripted outcome of the upstream `axios.post` to the planning
gateway: a resolved response carrying `response.data`, or a rejection with
the optional `error.code`, `error.message` and `error.response?.data`. -/
inductive UpOutcome
  | success (data : String)
  | failure (code : Option String) (message : Option String) (respData : Option String)
deriving DecidableEq, Repr

/-- The handler's timeout classification: `error.code === "ECONNABORTED"`,
`error.code === "ETIMEDOUT"`, or
`error.message?.toLowerCase().includes("timeout")`. -/
def timeoutLike (code message : Option String) : Bool :=
  code = some "ECONNABORTED" || code = some "ETIMEDOUT" ||
    (match message with
      | some m => jsIncludes m.toLower "timeout"
      | none => false)

/-- HTTP response produced by the treatment-plans proxy handler. -/
inductive PlannerResult
  | methodNotAllowed
  | badRequest
  | ok (data : String)
  | failedResp (status : Nat) (details : String)
  | fallback (details : Option String)
deriving DecidableEq, Repr

/-- `const maxAttempts = 2` in the treatment-plans proxy. -/
def plannerMaxAttempts : Nat := 2

/-- `2000`, the fixed backoff in milliseconds awaited before a retry. -/
def plannerBackoffMs : Nat := 2000

/-- The retry `for` loop of the treatment-plans proxy, with `attempt` the
loop counter and `rem` the iterations the loop may still run (so the
source's `attempt < maxAttempts` is `0 < rem` after the current iteration
is peeled off).  Each iteration posts `body` upstream; on success it
responds 200 with the data; on a failure it retries after
`plannerBackoffMs` exactly when iterations remain and the error is
`timeoutLike`, and otherwise responds 504 (timeout-like) or 500 with
`error.response?.data || error.message || "Failed to generate treatment
plans"`.  Returns the response, the bodies sent upstream in order, and the
backoff waits performed. -/
def plannerLoop (fetch : Nat → UpOutcome) (body : PlannerBody) :
    Nat → Nat → PlannerResult × List PlannerBody × List Nat
  | _, 0 => (.fallback none, [], [])
  | attempt, rem + 1 =>
    match fetch attempt with
    | .success d => (.ok d, [body], [])
    | .failure code msg rdata =>
      if 0 < rem && timeoutLike code msg then
        ((plannerLoop fetch body (attempt + 1) rem).1,
          body :: (plannerLoop fetch body (attempt + 1) rem).2.1,
          plannerBackoffMs :: (plannerLoop fetch body (attempt + 1) rem).2.2)
      else
        (.failedResp (if timeoutLike code msg then 504 else 500)
          (jsOr rdata (jsOr msg "Failed to generate treatment plans")), [body], [])

/-- The treatment-plans proxy `handler`: 405 unless `POST`, 400 when
`!session_id || !treatment_planner_text`, otherwise the retry loop
starting at attempt 1 with `plannerMaxAttempts` iterations available. -/
def plannerHandler (method : String) (body : PlannerBody) (fetch : Nat → UpOutcome) :
    PlannerResult × List PlannerBody × List Nat :=
  if method ≠ "POST" then (.methodNotAllowed, [], [])
  else if !truthy body.session_id || !truthy body.treatment_planner_text then
    (.badRequest, [], [])
  else plannerLoop fetch body 1 plannerMaxAttempts

/-! ## Recording state machine (src/pages/index.js) -/

/-- `MediaRecorder.state` of the underlying recorder. -/
inductive MRState
  | recording
  | paused
  | inactive
deriving DecidableEq, Repr

/-- A `MediaRecorder` together with the liveness of the capture stream it
was created on (`streamLive` is false once `stream.getTracks()` have been
stopped by the recorder's stop handler). -/
structure Recorder where
  mr : MRState
  streamLive : Bool
deriving DecidableEq, Repr

/-- The React page's `recordingState`: `"idle" | "recording" | "paused" |
"stopped"`. -/
inductive RecPhase
  | idle
  | recording
  | paused
  | stopped
deriving DecidableEq, Repr

/-- The mutable state of the React recording page: `mediaRecorderRef`,
`audioChunksRef` (chunks kept as their sizes), `audioBlobRef`,
`recordingState`, `canSubmit`, the interval timer and elapsed display, the
error banner, and the count of capture streams still live but no longer
referenced by the current recorder (streams leaked by overwriting
`mediaRecorderRef`). -/
structure RecState where
  recorder : Option Recorder
  chunks : List Nat
  blob : Option (List Nat)
  phase : RecPhase
  canSubmit : Bool
  timerRunning : Bool
  elapsedMs : Nat
  errorMsg : String
  leakedStreams : Nat
deriving DecidableEq, Repr

/-- The page's state on first render. -/
def recStart : RecState :=
  { recorder := none, chunks := [], blob := none, phase := .idle,
    canSubmit := false, timerRunning := false, elapsedMs := 0,
    errorMsg := "", leakedStreams := 0 }

/-- Number of capture-device handles (live streams) currently held. -/
def heldDevices (s : RecState) : Nat :=
  s.leakedStreams +
    (match s.recorder with
      | some r => if r.streamLive then 1 else 0
      | none => 0)

/-- An operation or callback of the recording page.  `startOk` and
`startFail` are `startRecording` with `getUserMedia` resolving
respectively rejecting; `pause` is `pauseRecording`; `stop` is
`stopRecording` together with the recorder's stop handler (which builds
the blob, enables submission, and stops the stream's tracks); `reset` is
`resetView`; `data c` is the recorder's `ondataavailable` callback with a
chunk of size `c`. -/
inductive RecEvent
  | startOk
  | startFail
  | pause
  | stop
  | reset
  | data (c : Nat)
deriving DecidableEq, Repr

/-- One step of the recording page.  `startRecording` first clears the
error, chunks, blob and `canSubmit`; on success it replaces
`mediaRecorderRef` with a fresh recording recorder on a fresh live stream
(leaking the previous stream if it was still live), starts the recorder,
sets phase `recording` and restarts the timer from 0; on failure it only
sets the error banner.  `pauseRecording` dispatches on the recorder's own
state: `recording` pauses (phase `paused`, timer stopped), `paused`
resumes (phase `recording`, timer restarted from 0 as `startTimer`
resets `elapsedMs`), otherwise nothing happens.  `stopRecording` returns
unless a recorder exists and is not `inactive`; otherwise the recorder
stops (its stop handler sets the blob to the accumulated chunks, enables
submission and stops the stream), phase becomes `stopped` and the timer
stops.  `resetView` stops the timer and returns to the initial
presentation state without touching the recorder or any stream.
`ondataavailable` appends a chunk exactly when the recorder is recording
and the chunk size is positive. -/
def recStep (s : RecState) : RecEvent → RecState
  | .startOk =>
    { s with
      errorMsg := "", chunks := [], blob := none, canSubmit := false,
      leakedStreams := s.leakedStreams +
        (match s.recorder with
          | some r => if r.streamLive then 1 else 0
          | none => 0),
      recorder := some { mr := .recording, streamLive := true },
      phase := .recording, timerRunning := true, elapsedMs := 0 }
  | .startFail =>
    { s with
      chunks := [], blob := none, canSubmit := false,
      errorMsg := "Failed to start recording. Please check microphone permissions." }
  | .pause =>
    match s.recorder with
    | some r =>
      if r.mr = .recording then
        { s with recorder := some { r with mr := .paused },
                 phase := .paused, timerRunning := false }
      else if r.mr = .paused then
        { s with recorder := some { r with mr := .recording },
                 phase := .recording, timerRunning := true, elapsedMs := 0 }
      else s
    | none => s
  | .stop =>
    match s.recorder with
    | some r =>
      if r.mr = .inactive then s
      else
        { s with recorder := some { mr := .inactive, streamLive := false },
                 blob := some s.chunks, canSubmit := true,
                 phase := .stopped, timerRunning := false }
    | none => s
  | .reset =>
    { s with
      timerRunning := false, phase := .idle, elapsedMs := 0,
      errorMsg := "", canSubmit := false, chunks := [], blob := none }
  | .data c =>
    match s.recorder with
    | some r =>
      if r.mr = .recording ∧ 0 < c then { s with chunks := s.chunks ++ [c] }
      else s
    | none => s

/-- The page state after a sequence of operations and callbacks. -/
def recRun (evs : List RecEvent) : RecState :=
  evs.foldl recStep recStart

/-- The recorder is absent or inactive, so `pauseRecording` and
`stopRecording` have nothing to act on. -/
def mrQuiet (s : RecState) : Bool :=
  match s.recorder with
  | none => true
  | some r => r.mr = .inactive

/-- The React page's start-button guard,
`disabled={isRecording || isPaused}`. -/
def startBtnDisabled (s : RecState) : Bool :=
  s.phase = .recording || s.phase = .paused

/-! ## Plain-script variant (src/public/app.js): module state and `resetView` -/

/-- The module-level recorder state of `src/public/app.js`:
`audioChunks`, `audioBlob`, `isRecording`, `isPaused`, and whether the
submit button is disabled. -/
structure AppState where
  audioChunks : List Nat
  audioBlob : Option (List Nat)
  isRecording : Bool
  isPaused : Bool
  submitDisabled : Bool
deriving DecidableEq, Repr

/-- `resetView` of `src/public/app.js`: besides DOM text updates it sets
`audioBlob = null` and disables the submit button; it touches neither
`audioChunks` nor the recording flags nor any recorder or stream. -/
def resetViewApp (s : AppState) : AppState :=
  { s with audioBlob := none, submitDisabled := true }

/-- Invariant of the React recording page: a `stopped` phase has a quiet
recorder, a non-null blob occurs only in the `stopped` phase, and a
`stopped` phase with captured chunks has a non-null blob. -/
def recGood (s : RecState) : Prop :=
  (s.phase = .stopped → mrQuiet s = true) ∧
  (s.blob ≠ none → s.phase = .stopped) ∧
  (s.phase = .stopped → s.chunks ≠ [] → s.blob ≠ none)

/-! ## Helper lemmas about the poller -/

theorem pollGo_append (pre rest : List FetchOutcome) (a : Nat)
    (h : ∀ o ∈ pre, inProgress o = true) (hlt : a + pre.length < maxAttempts) :
    pollGo (pre ++ rest) a =
      ((pollGo rest (a + pre.length)).1, (pollGo rest (a + pre.length)).2 + pre.length) := by
  induction pre generalizing a with
  | nil => simp
  | cons o pre ih =>
    have ho := h o (by simp)
    cases o with
    | reject m => simp [inProgress] at ho
    | httpNotOk => simp [inProgress] at ho
    | ok st t e =>
      simp only [inProgress, Bool.and_eq_true, Bool.not_eq_true', decide_eq_false_iff_not] at ho
      obtain ⟨h1, h2⟩ := ho
      have ha1 : ¬ (maxAttempts ≤ a + 1) := by
        simp only [List.length_cons] at hlt; omega
      have hrec := ih (fun o ho => h o (by simp [ho])) (a := a + 1)
        (by simp only [List.length_cons] at hlt; omega)
      have hidx : a + 1 + pre.length = a + (pre.length + 1) := by omega
      simp only [List.cons_append, pollGo, if_neg h1, if_neg h2, if_neg ha1,
        List.length_cons, List.append_eq]
      rw [hrec, hidx, Nat.add_assoc]

theorem pollGo_timeout (script : List FetchOutcome) (a : Nat)
    (h : ∀ o ∈ script, inProgress o = true) (ha : a < maxAttempts)
    (hlen : maxAttempts ≤ a + script.length) :
    pollGo script a =
      (.errored "Transcription timeout. Please try again.", maxAttempts - a) := by
  induction script generalizing a with
  | nil =>
    exfalso
    simp only [List.length_nil, Nat.add_zero] at hlen
    omega
  | cons o rest ih =>
    have ho := h o (by simp)
    cases o with
    | reject m => simp [inProgress] at ho
    | httpNotOk => simp [inProgress] at ho
    | ok st t e =>
      simp only [inProgress, Bool.and_eq_true, Bool.not_eq_true', decide_eq_false_iff_not] at ho
      obtain ⟨h1, h2⟩ := ho
      by_cases hb : maxAttempts ≤ a + 1
      · have hsub : maxAttempts - a = 1 := by omega
        simp only [pollGo, if_neg h1, if_neg h2, if_pos hb, hsub]
      · have hrec := ih (fun o ho => h o (by simp [ho])) (a := a + 1)
          (by omega) (by simp only [List.length_cons] at hlen; omega)
        have hsub : maxAttempts - (a + 1) + 1 = maxAttempts - a := by omega
        simp only [pollGo, if_neg h1, if_neg h2, if_neg hb, hrec, hsub]

/-! ## Claim C1 -/

/-- C1.  Whenever every scripted status is non-terminal and at least 100
responses are available, the poller performs exactly 100 fetches (even
though the script offers more) and ends in the timeout error, so no
further attempt is scheduled; the polling interval constant is 3000ms; and
for the scripted sequence Processing, Processing, Completed("hello") the
poller resolves with text "hello" after exactly 3 fetches. -/
theorem poller_timeout_bound_and_scripted_completion :
    (∀ script : List FetchOutcome,
        (∀ o ∈ script, inProgress o = true) →
        maxAttempts ≤ script.length →
        pollTranscription script =
          (.errored "Transcription timeout. Please try again.", 100)) ∧
      pollIntervalMs = 3000 ∧
      pollTranscription
        [.ok "processing" none none, .ok "processing" none none,
         .ok "completed" (some "hello") none] = (.completed "hello", 3) := by
  refine ⟨?_, rfl, by decide⟩
  intro script h hlen
  have := pollGo_timeout script 0 h (by decide) (by omega)
  simpa [pollTranscription, maxAttempts] using this

/-- Witness for C1: a script of 120 consecutive `"queued"` statuses is cut
off at exactly 100 fetches with the timeout error. -/
theorem poller_timeout_bound_witness :
    pollTranscription (List.replicate 120 (.ok "queued" none none)) =
      (.errored "Transcription timeout. Please try again.", 100) := by
  apply poller_timeout_bound_and_scripted_completion.1
  · intro o ho
    rw [List.eq_of_mem_replicate ho]
    decide
  · simp [maxAttempts]

/-! ## Claim C6 -/

/-- C6.  If the status fetch of an attempt fails at the transport level
(the fetch promise rejects, or the response is non-success), after any
run of in-progress attempts, the poller fails immediately with the
transport error message: that attempt is the last fetch performed (it is
not retried and nothing is scheduled afterwards), regardless of what the
script would have answered later. -/
theorem poller_transport_error_fails_fast :
    ∀ (pre rest : List FetchOutcome) (m : String),
      (∀ o ∈ pre, inProgress o = true) →
      pre.length < maxAttempts →
      pollTranscription (pre ++ .reject m :: rest) =
          (.errored (jsOr (some m) "Failed to get transcription"), pre.length + 1) ∧
        pollTranscription (pre ++ .httpNotOk :: rest) =
          (.errored "Failed to get transcription status", pre.length + 1) := by
  intro pre rest m h hlt
  constructor
  · rw [pollTranscription, pollGo_append pre (.reject m :: rest) 0 h (by omega)]
    simp [pollGo, Nat.add_comm]
  · rw [pollTranscription, pollGo_append pre (.httpNotOk :: rest) 0 h (by omega)]
    simp [pollGo, Nat.add_comm]

/-- Witness for C6: after one in-progress attempt, a rejected fetch stops
the run at 2 fetches even though a completed status was next in the
script. -/
theorem poller_transport_error_witness :
    pollTranscription
        [.ok "processing" none none, .reject "net down",
         .ok "completed" (some "x") none] =
        (.errored (jsOr (some "net down") "Failed to get transcription"), 2) ∧
      pollTranscription
        [.ok "processing" none none, .httpNotOk,
         .ok "completed" (some "x") none] =
        (.errored "Failed to get transcription status", 2) := by
  have h := poller_transport_error_fails_fast
    [.ok "processing" none none] [.ok "completed" (some "x") none] "net down"
    (by decide) (by decide)
  exact ⟨h.1, h.2⟩

/-! ## Claim C10 -/

/-- C10.  Any fetched status other than exactly `"completed"` or
`"error"` — including unknown or malformed strings — is treated as still
in progress: while the bound is not yet reached the attempt is counted
and the next poll is scheduled (the run continues into the rest of the
script), and at the bound the attempt still counts, producing the timeout
failure. -/
theorem poller_unknown_status_continues :
    ∀ (s : String) (t e : Option String) (rest : List FetchOutcome) (attempt : Nat),
      s ≠ "completed" → s ≠ "error" →
      (attempt + 1 < maxAttempts →
        pollGo (.ok s t e :: rest) attempt =
          ((pollGo rest (attempt + 1)).1, (pollGo rest (attempt + 1)).2 + 1)) ∧
      (maxAttempts ≤ attempt + 1 →
        pollGo (.ok s t e :: rest) attempt =
          (.errored "Transcription timeout. Please try again.", 1)) := by
  intro s t e rest attempt h1 h2
  constructor
  · intro hlt
    simp [pollGo, if_neg h1, if_neg h2, Nat.not_le.mpr hlt]
  · intro hge
    simp [pollGo, if_neg h1, if_neg h2, hge]

/-- Witness for C10: the malformed status `"???"` at attempt 0 leads to a
scheduled next poll (1 fetch, run continuing into the empty rest), and at
attempt 99 (the 100th fetch) to the timeout error. -/
theorem poller_unknown_status_witness :
    pollGo [.ok "???" none none] 0 = (.pending, 1) ∧
      pollGo [.ok "???" none none] 99 =
        (.errored "Transcription timeout. Please try again.", 1) := by
  have h := poller_unknown_status_continues "???" none none [] 0
    (by decide) (by decide)
  have h99 := poller_unknown_status_continues "???" none none [] 99
    (by decide) (by decide)
  exact ⟨by simpa [pollGo] using h.1 (by decide), h99.2 (by decide)⟩

/-! ## Claim C3 -/

/-- C3.  Calling the submission pipeline with a null `finalAudio` fails
with the no-audio-recorded outcome and performs zero network operations —
no upload, no job start, no poll fetch — whatever the collaborators would
have answered. -/
theorem submit_null_audio_no_network :
    ∀ (upl trx : Except (Option String) String) (script : List FetchOutcome),
      submitTranscription none upl trx script = (.noAudio, []) :=
  fun _ _ _ => rfl

/-! ## Helper lemmas about the planner retry loop -/

theorem plannerLoop_last (fetch : Nat → UpOutcome) (body : PlannerBody) (a : Nat) :
    (plannerLoop fetch body a 1).2.1 = [body] ∧ (plannerLoop fetch body a 1).2.2 = [] := by
  cases hfa : fetch a with
  | success d => simp [plannerLoop, hfa]
  | failure c m d => simp [plannerLoop, hfa]

theorem plannerLoop_ne_badRequest (fetch : Nat → UpOutcome) (body : PlannerBody) :
    ∀ (rem a : Nat), (plannerLoop fetch body a rem).1 ≠ .badRequest := by
  intro rem
  induction rem with
  | zero => intro a; simp [plannerLoop]
  | succ rem ih =>
    intro a
    cases hfa : fetch a with
    | success d => simp [plannerLoop, hfa]
    | failure c m d =>
      by_cases hr : (0 < rem && timeoutLike c m) = true
      · simpa [plannerLoop, hfa, hr] using ih (a + 1)
      · simp [plannerLoop, hfa, hr]

theorem plannerLoop_sent_eq_body (fetch : Nat → UpOutcome) (body : PlannerBody) :
    ∀ (rem a : Nat), ∀ r ∈ (plannerLoop fetch body a rem).2.1, r = body := by
  intro rem
  induction rem with
  | zero => intro a; simp [plannerLoop]
  | succ rem ih =>
    intro a
    cases hfa : fetch a with
    | success d => simp [plannerLoop, hfa]
    | failure c m d =>
      by_cases hr : (0 < rem && timeoutLike c m) = true
      · intro r hm
        simp only [plannerLoop, hfa, hr, if_pos, List.mem_cons] at hm
        rcases hm with h | h
        · exact h
        · exact ih (a + 1) r h
      · simp [plannerLoop, hfa, hr]

/-! ## Claim C2 -/

/-- C2.  For every invocation of the treatment-plans proxy with a valid
body: at most 2 upstream attempts are made; a second attempt is made if
and only if the first attempt fails with a timeout-classified error
(connection-abort, timed-out code, or a message mentioning timeout); the
backoff trace is exactly one 2000ms wait when a retry happens and empty
otherwise; and a non-timeout failure of the first attempt is not retried
and propagates immediately as the 500 planning-request-failed response
carrying the provider detail. -/
theorem planner_retry_discipline :
    ∀ (body : PlannerBody) (fetch : Nat → UpOutcome),
      truthy body.session_id = true →
      truthy body.treatment_planner_text = true →
      (plannerHandler "POST" body fetch).2.1.length ≤ plannerMaxAttempts ∧
      ((plannerHandler "POST" body fetch).2.1.length = 2 ↔
        ∃ c m d, fetch 1 = .failure c m d ∧ timeoutLike c m = true) ∧
      ((plannerHandler "POST" body fetch).2.2 =
        if (plannerHandler "POST" body fetch).2.1.length = 2
          then [plannerBackoffMs] else []) ∧
      (∀ c m d, fetch 1 = .failure c m d → timeoutLike c m = false →
        (plannerHandler "POST" body fetch).1 =
            .failedResp 500 (jsOr d (jsOr m "Failed to generate treatment plans")) ∧
          (plannerHandler "POST" body fetch).2.1 = [body]) := by
  intro body fetch h1 h2
  have hh : plannerHandler "POST" body fetch = plannerLoop fetch body 1 plannerMaxAttempts := by
    simp [plannerHandler, h1, h2]
  rw [hh]
  cases hf1 : fetch 1 with
  | success d =>
    have hval : plannerLoop fetch body 1 plannerMaxAttempts = (.ok d, [body], []) := by
      simp [plannerLoop, plannerMaxAttempts, hf1]
    rw [hval]
    refine ⟨by simp [plannerMaxAttempts], ?_, by simp, ?_⟩
    · constructor
      · intro hlen; simp at hlen
      · rintro ⟨c, m, dd, heq, -⟩
        exact absurd heq (by simp)
    · intro c m dd heq
      exact absurd heq (by simp)
  | failure c m d =>
    cases htl : timeoutLike c m with
    | true =>
      have hval : plannerLoop fetch body 1 plannerMaxAttempts =
          ((plannerLoop fetch body 2 1).1,
            body :: (plannerLoop fetch body 2 1).2.1,
            plannerBackoffMs :: (plannerLoop fetch body 2 1).2.2) := by
        simp [plannerLoop, plannerMaxAttempts, hf1, htl]
      obtain ⟨hs, hb⟩ := plannerLoop_last fetch body 2
      rw [hval, hs, hb]
      refine ⟨by simp [plannerMaxAttempts], ?_, by simp, ?_⟩
      · constructor
        · intro _
          exact ⟨c, m, d, rfl, htl⟩
        · intro _
          simp
      · intro c' m' d' heq htl'
        injection heq with e1 e2 e3
        subst e1; subst e2
        rw [htl] at htl'
        exact Bool.noConfusion htl'
    | false =>
      have hval : plannerLoop fetch body 1 plannerMaxAttempts =
          (.failedResp 500 (jsOr d (jsOr m "Failed to generate treatment plans")),
            [body], []) := by
        simp [plannerLoop, plannerMaxAttempts, hf1, htl]
      rw [hval]
      refine ⟨by simp [plannerMaxAttempts], ?_, by simp, ?_⟩
      · constructor
        · intro hlen; simp at hlen
        · rintro ⟨c', m', d', heq, htl'⟩
          injection heq with e1 e2 e3
          subst e1; subst e2
          rw [htl] at htl'
          exact Bool.noConfusion htl'
      · intro c' m' d' heq hneg
        injection heq with e1 e2 e3
        subst e1; subst e2; subst e3
        exact ⟨rfl, rfl⟩

/-- Witness for C2: with a valid body and a first attempt failing with
`ETIMEDOUT`, exactly two upstream requests are sent with a single 2000ms
backoff between them. -/
theorem planner_retry_discipline_witness :
    (plannerHandler "POST"
        { session_id := some "s1", user_id := some "u1", slot_id := some "sl1",
          treatment_planner_text := some "notes" }
        (fun _ => .failure (some "ETIMEDOUT") none none)).2.1.length = 2 ∧
      (plannerHandler "POST"
        { session_id := some "s1", user_id := some "u1", slot_id := some "sl1",
          treatment_planner_text := some "notes" }
        (fun _ => .failure (some "ETIMEDOUT") none none)).2.2 = [plannerBackoffMs] := by
  have h := planner_retry_discipline
    { session_id := some "s1", user_id := some "u1", slot_id := some "sl1",
      treatment_planner_text := some "notes" }
    (fun _ => .failure (some "ETIMEDOUT") none none) (by decide) (by decide)
  have hl := h.2.1.mpr ⟨some "ETIMEDOUT", none, none, rfl, by decide⟩
  refine ⟨hl, ?_⟩
  rw [h.2.2.1, if_pos hl]

/-! ## Claim C9 -/

/-- Counterexample to C9 as stated: a POST body in which `session_id` and
`treatment_planner_text` are both present (so neither is missing) but
`session_id` is the empty string is still rejected with 400, because the
handler tests JavaScript truthiness rather than presence. -/
theorem planner_400_despite_fields_present :
    plannerHandler "POST"
        { session_id := some "", user_id := some "u1", slot_id := some "sl1",
          treatment_planner_text := some "notes" }
        (fun _ => .success "plans") = (.badRequest, [], []) ∧
      (some "" : Option String) ≠ none ∧
      (some "notes" : Option String) ≠ none := by
  refine ⟨?_, by simp, by simp⟩
  rfl

/-- C9 amended.  A POST request is rejected with 400 if and only if
`session_id` or `treatment_planner_text` is JavaScript-falsy (absent or
the empty string); `user_id` and `slot_id` are never checked, a rejected
request triggers no upstream call, and every request forwarded upstream
is exactly the received body, so absent `user_id`/`slot_id` fields are
forwarded absent. -/
theorem planner_validation_amended :
    ∀ (body : PlannerBody) (fetch : Nat → UpOutcome),
      ((plannerHandler "POST" body fetch).1 = .badRequest ↔
        (truthy body.session_id = false ∨ truthy body.treatment_planner_text = false)) ∧
      ((plannerHandler "POST" body fetch).1 = .badRequest →
        (plannerHandler "POST" body fetch).2.1 = []) ∧
      (∀ r ∈ (plannerHandler "POST" body fetch).2.1, r = body) := by
  intro body fetch
  by_cases hv : (!truthy body.session_id || !truthy body.treatment_planner_text) = true
  · have hh : plannerHandler "POST" body fetch = (.badRequest, [], []) := by
      simp only [plannerHandler, if_neg (by simp : ¬ ("POST" ≠ "POST")), if_pos hv]
    rw [hh]
    refine ⟨?_, fun _ => rfl, by simp⟩
    simp only [Bool.or_eq_true, Bool.not_eq_true'] at hv
    exact ⟨fun _ => hv, fun _ => rfl⟩
  · have hh : plannerHandler "POST" body fetch = plannerLoop fetch body 1 plannerMaxAttempts := by
      simp only [plannerHandler, if_neg (by simp : ¬ ("POST" ≠ "POST")), if_neg hv]
    rw [hh]
    simp only [Bool.or_eq_true, Bool.not_eq_true'] at hv
    push_neg at hv
    refine ⟨?_, ?_, plannerLoop_sent_eq_body fetch body plannerMaxAttempts 1⟩
    · constructor
      · intro hbad
        exact absurd hbad (plannerLoop_ne_badRequest fetch body plannerMaxAttempts 1)
      · intro hfalse
        rcases hfalse with hf | hf
        · exact absurd hf (by simp [hv.1])
        · exact absurd hf (by simp [hv.2])
    · intro hbad
      exact absurd hbad (plannerLoop_ne_badRequest fetch body plannerMaxAttempts 1)

/-- Witness for C9 amended: a body lacking `user_id` and `slot_id` but
with truthy `session_id` and text is not rejected, while a body lacking
`session_id` is rejected with no upstream request sent. -/
theorem planner_validation_amended_witness :
    (plannerHandler "POST"
        { session_id := none, user_id := some "u1", slot_id := some "sl1",
          treatment_planner_text := some "notes" }
        (fun _ => .success "plans")).1 = .badRequest ∧
      (plannerHandler "POST"
        { session_id := none, user_id := some "u1", slot_id := some "sl1",
          treatment_planner_text := some "notes" }
        (fun _ => .success "plans")).2.1 = [] ∧
      ¬ (plannerHandler "POST"
        { session_id := some "s1", user_id := none, slot_id := none,
          treatment_planner_text := some "notes" }
        (fun _ => .success "plans")).1 = .badRequest := by
  have h1 := planner_validation_amended
    { session_id := none, user_id := some "u1", slot_id := some "sl1",
      treatment_planner_text := some "notes" }
    (fun _ => .success "plans")
  have h2 := planner_validation_amended
    { session_id := some "s1", user_id := none, slot_id := none,
      treatment_planner_text := some "notes" }
    (fun _ => .success "plans")
  have hbad := h1.1.mpr (Or.inl (by decide))
  exact ⟨hbad, h1.2.1 hbad, fun hb => by
    rcases h2.1.mp hb with hf | hf
    · exact absurd hf (by decide)
    · exact absurd hf (by decide)⟩

/-! ## Helper lemmas about the recording state machine -/

theorem recGood_step (s : RecState) (e : RecEvent) (h : recGood s) :
    recGood (recStep s e) := by
  obtain ⟨hq, hb, hc⟩ := h
  have hblob : ∀ r : Recorder, s.recorder = some r → ¬ r.mr = .inactive → s.blob = none := by
    intro r hrec hmr
    by_contra hbl
    have hqt := hq (hb hbl)
    simp only [mrQuiet, hrec, decide_eq_true_eq] at hqt
    exact hmr hqt
  cases e with
  | startOk => simp [recGood, recStep, mrQuiet]
  | startFail =>
    refine ⟨fun hp => hq hp, by simp [recStep], by simp [recStep]⟩
  | pause =>
    rcases hrec : s.recorder with _ | r
    · simp only [recStep, hrec]
      exact ⟨hq, hb, hc⟩
    · by_cases h1 : r.mr = .recording
      · have hbn : s.blob = none := hblob r hrec (by simp [h1])
        simp only [recStep, hrec, if_pos h1]
        exact ⟨by simp, by simp [hbn], by simp⟩
      · by_cases h2 : r.mr = .paused
        · have hbn : s.blob = none := hblob r hrec (by simp [h2])
          simp only [recStep, hrec, if_neg h1, if_pos h2]
          exact ⟨by simp, by simp [hbn], by simp⟩
        · simp only [recStep, hrec, if_neg h1, if_neg h2]
          exact ⟨hq, hb, hc⟩
  | stop =>
    rcases hrec : s.recorder with _ | r
    · simp only [recStep, hrec]
      exact ⟨hq, hb, hc⟩
    · by_cases h1 : r.mr = .inactive
      · simp only [recStep, hrec, if_pos h1]
        exact ⟨hq, hb, hc⟩
      · simp only [recStep, hrec, if_neg h1]
        exact ⟨by simp [mrQuiet], by simp, by simp⟩
  | reset => simp [recGood, recStep]
  | data c =>
    rcases hrec : s.recorder with _ | r
    · simp only [recStep, hrec]
      exact ⟨hq, hb, hc⟩
    · by_cases h1 : r.mr = .recording ∧ 0 < c
      · simp only [recStep, hrec, if_pos h1]
        refine ⟨?_, fun hbl => hb hbl, ?_⟩
        · intro hp
          have hqt := hq hp
          simp only [mrQuiet, hrec, decide_eq_true_eq] at hqt
          simp [mrQuiet, hqt]
        · intro hp _
          exfalso
          have hqt := hq hp
          simp only [mrQuiet, hrec, decide_eq_true_eq] at hqt
          rw [h1.1] at hqt
          cases hqt
      · simp only [recStep, hrec, if_neg h1]
        exact ⟨hq, hb, hc⟩

theorem recGood_run (evs : List RecEvent) : recGood (recRun evs) := by
  suffices h : ∀ (l : List RecEvent) (s : RecState), recGood s → recGood (l.foldl recStep s) by
    exact h evs recStart (by simp [recGood, recStart, mrQuiet])
  intro l
  induction l with
  | nil => intro s hs; exact hs
  | cons e l ih => intro s hs; exact ih (recStep s e) (recGood_step s e hs)

/-! ## Claim C4 -/

/-- Counterexample to C4 as stated: starting and stopping a recording with
no captured chunk reaches a state whose `finalAudio` is non-null (the stop
handler builds a blob from the chunk list unconditionally, here the empty
blob) while no chunk was captured, so finalAudio non-null is not
equivalent to being stopped with at least one chunk. -/
theorem blob_nonnull_with_zero_chunks :
    (recRun [.startOk, .stop]).blob ≠ none ∧
      ¬ ((recRun [.startOk, .stop]).phase = .stopped ∧
          (recRun [.startOk, .stop]).chunks ≠ []) := by
  decide

/-- C4 amended.  In every reachable state of the recording page,
`finalAudio` is non-null only if the state is Stopped, and in a Stopped
state in which at least one chunk was captured `finalAudio` is non-null;
however a Stopped state with zero captured chunks may carry a non-null
(empty) blob, since the stop handler builds the blob unconditionally. -/
theorem blob_stopped_invariant :
    ∀ evs : List RecEvent,
      ((recRun evs).blob ≠ none → (recRun evs).phase = .stopped) ∧
      ((recRun evs).phase = .stopped → (recRun evs).chunks ≠ [] →
        (recRun evs).blob ≠ none) :=
  fun evs => ⟨(recGood_run evs).2.1, (recGood_run evs).2.2⟩

/-- Witness for C4 amended: after capturing a chunk and stopping, the
state is Stopped and the blob is non-null. -/
theorem blob_stopped_invariant_witness :
    (recRun [.startOk, .data 5, .stop]).phase = .stopped ∧
      (recRun [.startOk, .data 5, .stop]).blob ≠ none := by
  have h := blob_stopped_invariant [.startOk, .data 5, .stop]
  exact ⟨h.1 (by decide), h.2 (by decide) (by decide)⟩

/-! ## Claim C5 -/

/-- Counterexample to C5 as stated: resetting while a recording is live
returns the page to Idle with null blob and empty chunks, yet the capture
device is still held afterwards — `resetView` never stops the recorder or
its stream tracks, so it does not release a device that `stop()` had not
already released. -/
theorem reset_leaves_device_held :
    (recRun [.startOk, .reset]).phase = .idle ∧
      (recRun [.startOk, .reset]).blob = none ∧
      (recRun [.startOk, .reset]).chunks = [] ∧
      heldDevices (recRun [.startOk, .reset]) = 1 := by
  decide

/-- C5 amended.  On the React page, `reset()` from any state yields Idle
with null `finalAudio` and an empty chunk sequence, but it leaves the
count of held capture devices unchanged — the device is released only by
the recorder's stop handler, never by `reset()`.  In the plain-script
variant, `resetView` nulls `audioBlob` but leaves the chunk array and the
recording flags untouched and likewise releases nothing. -/
theorem reset_view_amended :
    ∀ (s : RecState) (a : AppState),
      (recStep s .reset).phase = .idle ∧
      (recStep s .reset).blob = none ∧
      (recStep s .reset).chunks = [] ∧
      heldDevices (recStep s .reset) = heldDevices s ∧
      (resetViewApp a).audioBlob = none ∧
      (resetViewApp a).audioChunks = a.audioChunks ∧
      (resetViewApp a).isRecording = a.isRecording ∧
      (resetViewApp a).isPaused = a.isPaused := by
  intro s a
  refine ⟨rfl, rfl, rfl, ?_, rfl, rfl, rfl, rfl⟩
  simp [heldDevices, recStep]

/-! ## Claim C7 -/

/-- Counterexample to C7 as stated: invoking `start()` while already
Recording acquires a second capture-device handle — two live streams are
then held, because `startRecording` has no internal guard and simply
overwrites the recorder, leaking the first stream. -/
theorem double_start_double_device :
    (recRun [.startOk]).phase = .recording ∧
      heldDevices (recRun [.startOk, .startOk]) = 2 := by
  decide

/-- C7 amended.  `start()` has no internal guard: from any state — in
particular Recording or Paused — a successful `start()` acquires one more
capture-device handle (the previous live stream is leaked, not released);
the double acquisition is prevented only at the UI level, where the start
button is disabled exactly while Recording or Paused. -/
theorem start_unguarded_amended :
    ∀ s : RecState,
      (s.phase = .recording ∨ s.phase = .paused → startBtnDisabled s = true) ∧
      heldDevices (recStep s .startOk) = heldDevices s + 1 := by
  intro s
  constructor
  · intro hp
    rcases hp with hp | hp <;> simp [startBtnDisabled, hp]
  · rcases hrec : s.recorder with _ | r
    · simp [heldDevices, recStep, hrec]
    · by_cases hl : r.streamLive
      · simp [heldDevices, recStep, hrec, hl]
      · simp [heldDevices, recStep, hrec, hl]

/-- Witness for C7 amended: in the reachable Recording state the start
button is disabled, and a second successful `start()` from there takes
the held-device count from 1 to 2. -/
theorem start_unguarded_amended_witness :
    startBtnDisabled (recRun [.startOk]) = true ∧
      heldDevices (recStep (recRun [.startOk]) .startOk) =
        heldDevices (recRun [.startOk]) + 1 := by
  have h := start_unguarded_amended (recRun [.startOk])
  exact ⟨h.1 (Or.inl (by decide)), h.2⟩

/-! ## Claim C8 -/

/-- Counterexample to C8 as stated: in the Paused state, invoking
`pause()` is not a no-op — the handler's `else if` branch resumes the
recorder, moving the session back to Recording. -/
theorem pause_in_paused_resumes :
    (recRun [.startOk, .pause]).phase = .paused ∧
      (recRun [.startOk, .pause, .pause]).phase = .recording ∧
      (RecPhase.recording ≠ RecPhase.paused) := by
  decide

/-- C8 amended.  `pause()` is a complete no-op — state, chunks, blob and
timer all unchanged — exactly when the underlying recorder is absent or
inactive (which covers Idle and Stopped states reached without a stale
live recorder); when the recorder is paused, `pause()` instead acts as
resume: the session returns to Recording with chunks and blob untouched
and the timer running. -/
theorem pause_noop_amended :
    ∀ s : RecState,
      (mrQuiet s = true → recStep s .pause = s) ∧
      (∀ r : Recorder, s.recorder = some r → r.mr = .paused →
        (recStep s .pause).phase = .recording ∧
        (recStep s .pause).chunks = s.chunks ∧
        (recStep s .pause).blob = s.blob ∧
        (recStep s .pause).timerRunning = true) := by
  intro s
  constructor
  · intro hquiet
    rcases hrec : s.recorder with _ | r
    · simp [recStep, hrec]
    · simp only [mrQuiet, hrec, decide_eq_true_eq] at hquiet
      simp [recStep, hrec, hquiet]
  · intro r hrec hmr
    have h1 : ¬ r.mr = .recording := by rw [hmr]; intro hx; cases hx
    simp [recStep, hrec, h1, hmr]

/-- Witness for C8 amended: on the fresh page `pause()` changes nothing,
and from the reachable Paused state `pause()` resumes to Recording. -/
theorem pause_noop_amended_witness :
    recStep recStart .pause = recStart ∧
      (recStep (recRun [.startOk, .pause]) .pause).phase = .recording := by
  have h1 := pause_noop_amended recStart
  have h2 := pause_noop_amended (recRun [.startOk, .pause])
  refine ⟨h1.1 (by decide), ?_⟩
  exact (h2.2 { mr := .paused, streamLive := true } (by decide) rfl).1
